import Mathlib

/-!
Verification development for the Organix organ-donation platform.

The repository has three cooperating implementations of its business core:
* a Postgres schema with triggers and row-level policies
  (`supabase` SQL migrations: the `update_case_funding` and
  `validate_living_donor_organs` triggers, CHECK constraints),
* a Deno/Hono serverless API backed by a key-value store
  (`src/supabase/functions/server/index.tsx`),
* an Express backend delegating to Postgres
  (`src/backend/src/controllers`, `src/backend/src/services`).

Each section below is a shallow embedding of one of these layers,
translated function-by-function from the source.  Monetary NUMERIC(12,2)
columns are modelled as `Int` (exact addition is all the code uses);
timestamps are opaque strings supplied by the caller; the key-value store
is an association list whose `set` removes the key and appends
(extensionally the same map as the source's store).  Free-text
sanitisation (HTML-tag stripping of notes/history fields) is not modelled:
no verified property depends on the contents of those fields.
-/

namespace OrganixSpec

/-! ## Shared enumerations (SQL enum types) -/

inductive Role where
  | patient
  | donor
  | hospital
  | sponsor
  | admin
deriving DecidableEq, Repr

inductive DonorType where
  | living
  | deceased
deriving DecidableEq, Repr

inductive CaseStatus where
  | waiting
  | matched
  | funded
  | transplanted
deriving DecidableEq, Repr

inductive DbError where
  | Validation (msg : String)
  | CheckViolation
  | UniqueViolation
  | ForeignKey
deriving DecidableEq, Repr

/-! ## SQL schema embedding: funding ledger (schema file `part_012`)

`cases`, `sponsors` and `case_sponsors` rows, the `CHECK (amount > 0)`
constraint, and the `update_case_funding` AFTER INSERT trigger. -/

structure CaseRow where
  id : Nat
  patient_id : Nat
  organ_needed : String
  urgency_level : String
  status : CaseStatus
  funding_goal : Int
  funding_amount : Int
deriving DecidableEq, Repr

structure SponsorRow where
  user_id : Nat
  approved : Bool
  total_funded : Int
  funded_count : Nat
deriving DecidableEq, Repr

structure Contribution where
  case_id : Nat
  sponsor_id : Nat
  amount : Int
deriving DecidableEq, Repr

structure LedgerState where
  cases : List CaseRow
  sponsors : List SponsorRow
  case_sponsors : List Contribution
deriving DecidableEq, Repr

/-- The `UPDATE public.cases SET ...` statement of the `update_case_funding`
trigger, applied to one row:  `funding_amount := funding_amount + NEW.amount`
and `status := 'funded'` when `funding_amount + NEW.amount >= funding_goal
AND funding_goal > 0`, else the status is kept. -/
def update_case_funding_case (n : Contribution) (c : CaseRow) : CaseRow :=
  if c.id = n.case_id then
    { c with
      funding_amount := c.funding_amount + n.amount
      status :=
        if c.funding_amount + n.amount ≥ c.funding_goal ∧ 0 < c.funding_goal then
          CaseStatus.funded
        else c.status }
  else c

/-- The `UPDATE public.sponsors SET ...` statement of `update_case_funding`:
`total_funded := total_funded + NEW.amount`, `funded_count := funded_count + 1`. -/
def update_case_funding_sponsor (n : Contribution) (s : SponsorRow) : SponsorRow :=
  if s.user_id = n.sponsor_id then
    { s with total_funded := s.total_funded + n.amount, funded_count := s.funded_count + 1 }
  else s

/-- Insert into `public.case_sponsors`: the `CHECK (amount > 0)` constraint,
the foreign key on `case_id`, then the row append and the
`update_case_funding` AFTER INSERT trigger.  (The `sponsor_id` foreign key
references `public.users`, which is outside this state; the trigger's
sponsor update is a no-op when no sponsor row matches, as in SQL.) -/
def insertCaseSponsor (st : LedgerState) (n : Contribution) : Except DbError LedgerState :=
  if n.amount ≤ 0 then .error .CheckViolation
  else if !(st.cases.any (fun c => c.id == n.case_id)) then .error .ForeignKey
  else .ok
    { cases := st.cases.map (update_case_funding_case n)
      sponsors := st.sponsors.map (update_case_funding_sponsor n)
      case_sponsors := st.case_sponsors ++ [n] }

/-! ## SQL schema embedding: donor registration (migration file `part_013`)

`donors`, `donor_medical_info`, `donor_organs` and `emergency_contacts`
rows, their CHECK constraints, the `UNIQUE(donor_id, organ_name)`
constraint, and the `validate_living_donor_organs` BEFORE INSERT trigger. -/

structure DonorRow where
  user_id : Nat
  donor_type : Option DonorType
  consent_given : Bool
  consent_date : Option String
  can_withdraw : Bool
deriving DecidableEq, Repr

structure MedicalInfoRow where
  donor_id : Nat
  blood_type : String
  age : Option Nat
  gender : Option String
  allergies : String
  medical_conditions : String
  medical_history : String
  has_recent_tests : Bool
  recent_tests_description : String
deriving DecidableEq, Repr

structure DonorOrganRow where
  donor_id : Nat
  organ_name : String
  is_living_donation : Bool
  status : String
deriving DecidableEq, Repr

structure ContactRow where
  donor_id : Nat
  contact_type : String
  full_name : String
  relationship : String
  phone : String
  email : Option String
  address : String
  is_primary : Bool
deriving DecidableEq, Repr

/-- All donor-side tables, as one store (the Express/SQL state). -/
structure DonorDb where
  donors : List DonorRow
  medical : List MedicalInfoRow
  organs : List DonorOrganRow
  contacts : List ContactRow
deriving DecidableEq, Repr

def BLOOD_TYPE_VALUES : List String :=
  ["A+", "A-", "B+", "B-", "AB+", "AB-", "O+", "O-"]

def GENDER_VALUES : List String :=
  ["male", "female", "other", "prefer_not_to_say"]

/-- The `CHECK (organ_name IN (...))` list on `public.donor_organs`. -/
def ORGAN_NAME_VALUES : List String :=
  ["kidney", "liver", "partial_liver", "heart", "lung", "pancreas", "intestine",
   "bone_marrow", "blood", "cornea", "skin", "bone", "heart_valves"]

def ORGAN_STATUS_VALUES : List String :=
  ["available", "matched", "donated", "unavailable"]

/-- Organs a living donor may offer (trigger whitelist, also
`LIVING_DONOR_ORGANS` in the donor registration service). -/
def LIVING_DONOR_ORGAN_VALUES : List String :=
  ["kidney", "partial_liver", "bone_marrow", "blood"]

/-- CHECK constraints on `public.donor_medical_info` (`blood_type IN (...)`,
`age >= 18 AND age <= 100`, `gender IN (...)`; NULLs pass a SQL CHECK). -/
def donor_medical_info_check (m : MedicalInfoRow) : Bool :=
  BLOOD_TYPE_VALUES.contains m.blood_type &&
    (match m.age with
     | none => true
     | some a => 18 ≤ a && a ≤ 100) &&
    (match m.gender with
     | none => true
     | some g => GENDER_VALUES.contains g)

/-- CHECK constraints on `public.donor_organs`. -/
def donor_organs_check (o : DonorOrganRow) : Bool :=
  ORGAN_NAME_VALUES.contains o.organ_name && ORGAN_STATUS_VALUES.contains o.status

/-- `SELECT donor_type FROM public.donors WHERE user_id = ...` — NULL when
there is no row or the column is NULL. -/
def lookupDonorType (donors : List DonorRow) (did : Nat) : Option DonorType :=
  match donors.find? (fun d => d.user_id == did) with
  | some d => d.donor_type
  | none => none

/-- The `validate_living_donor_organs` trigger body: it raises (returns
`false`) exactly when the donor's recorded `donor_type` is `living`, the new
row has `is_living_donation = true`, and `organ_name` is outside the
living-eligible whitelist. -/
def validate_living_donor_organs (donors : List DonorRow) (row : DonorOrganRow) : Bool :=
  match lookupDonorType donors row.donor_id with
  | some DonorType.living =>
      if row.is_living_donation then LIVING_DONOR_ORGAN_VALUES.contains row.organ_name
      else true
  | _ => true

/-- Insert one row into `public.donor_organs`: BEFORE INSERT trigger, CHECK
constraints, the `donor_id` foreign key, and `UNIQUE(donor_id, organ_name)`. -/
def insertDonorOrgan (donors : List DonorRow) (organs : List DonorOrganRow)
    (row : DonorOrganRow) : Except DbError (List DonorOrganRow) :=
  if !(validate_living_donor_organs donors row) then
    .error (.Validation "Living donors can only donate: kidney, partial_liver, bone_marrow, or blood")
  else if !(donor_organs_check row) then .error .CheckViolation
  else if !(donors.any (fun d => d.user_id == row.donor_id)) then .error .ForeignKey
  else if organs.any (fun o => o.donor_id == row.donor_id && o.organ_name == row.organ_name) then
    .error .UniqueViolation
  else .ok (organs ++ [row])

/-- A multi-row `INSERT INTO donor_organs` statement: all rows or none
(one SQL statement is atomic). -/
def insertDonorOrgansAll (donors : List DonorRow) :
    List DonorOrganRow → List DonorOrganRow → Except DbError (List DonorOrganRow)
  | organs, [] => .ok organs
  | organs, r :: rs =>
    match insertDonorOrgan donors organs r with
    | .error e => .error e
    | .ok organs2 => insertDonorOrgansAll donors organs2 rs

/-- `upsert` into `donor_medical_info` with `onConflict: donor_id`. -/
def upsertMedicalInfo (med : List MedicalInfoRow) (m : MedicalInfoRow) :
    Except DbError (List MedicalInfoRow) :=
  if !(donor_medical_info_check m) then .error .CheckViolation
  else if med.any (fun x => x.donor_id == m.donor_id) then
    .ok (med.map (fun x => if x.donor_id == m.donor_id then m else x))
  else .ok (med ++ [m])

/-! ## Donor registration service (`part_001`, `registerLivingDonor`)

Client-side validation followed by the four store calls the service makes:
update `donors`, upsert `donor_medical_info`, delete this donor's
`donor_organs` rows, insert the new selection.  The service has no
transaction: each store call that succeeds persists even if a later one
fails (the `catch` only reshapes the error). -/

structure LivingDonorData where
  organs : List String
  bloodType : String
  age : Nat
  gender : String
  medicalHistory : String
  medicalConditions : String
  allergies : String
  hasRecentTests : Bool
  recentTestsDescription : String
  consent : Bool
deriving DecidableEq, Repr

/-- `validateLivingDonorData`: the per-field error map (field, message);
registration proceeds only when it is empty.  JS falsiness of the string
fields is emptiness; `!data.age || data.age < 18 || data.age > 100`
collapses to the range test for a natural number. -/
def validateLivingDonorData (d : LivingDonorData) : List (String × String) :=
  (if d.organs.isEmpty then [("organs", "Please select at least one organ to donate")] else []) ++
    (if d.bloodType == "" then [("bloodType", "Blood type is required")] else []) ++
    (if d.age < 18 || 100 < d.age then [("age", "Age must be between 18 and 100")] else []) ++
    (if d.gender == "" then [("gender", "Gender is required")] else []) ++
    (if d.medicalHistory == "" then [("medicalHistory", "Medical history is required")] else []) ++
    (if !d.consent then [("consent", "You must provide consent to donate")] else [])

/-- The organ rows `registerLivingDonor` builds from the selection. -/
def mkLivingOrganRow (uid : Nat) (g : String) : DonorOrganRow :=
  { donor_id := uid, organ_name := g, is_living_donation := true, status := "available" }

/-- The `donors` UPDATE of `registerLivingDonor` (and, with the other donor
type, of `registerDeceasedDonor`). -/
def registerDonorUpdate (uid : Nat) (dt : DonorType) (consent : Bool) (now : String)
    (donors : List DonorRow) : List DonorRow :=
  donors.map fun r =>
    if r.user_id == uid then
      { r with donor_type := some dt, consent_given := consent, consent_date := some now }
    else r

/-- `registerLivingDonor`: returns the success flag together with the store
as the sequence of calls leaves it. -/
def registerLivingDonor (uid : Nat) (d : LivingDonorData) (now : String) (db : DonorDb) :
    Bool × DonorDb :=
  if !(validateLivingDonorData d).isEmpty then (false, db)
  else
    let donors2 := registerDonorUpdate uid DonorType.living d.consent now db.donors
    match upsertMedicalInfo db.medical
        { donor_id := uid, blood_type := d.bloodType, age := some d.age,
          gender := some d.gender, allergies := d.allergies,
          medical_conditions := d.medicalConditions, medical_history := d.medicalHistory,
          has_recent_tests := d.hasRecentTests,
          recent_tests_description := d.recentTestsDescription } with
    | .error _ => (false, { db with donors := donors2 })
    | .ok med2 =>
      let organsDel := db.organs.filter (fun o => !(o.donor_id == uid))
      match insertDonorOrgansAll donors2 organsDel (d.organs.map (mkLivingOrganRow uid)) with
      | .error _ => (false, { db with donors := donors2, medical := med2, organs := organsDel })
      | .ok organs2 => (true, { db with donors := donors2, medical := med2, organs := organs2 })

/-! ## Express backend: consent service and controllers
(`donorSponsorService.js`, `part_010`) -/

/-- Casting a request string to the `donor_type` SQL enum. -/
def parseDonorType : String → Option DonorType
  | "living" => some DonorType.living
  | "deceased" => some DonorType.deceased
  | _ => none

/-- `donorService.updateConsent`: one UPDATE on `donors` setting
`donor_type`, `consent_given`, and `consent_date` (`now` when consent is
given, NULL when withdrawn); `.single()` makes a missing row an error.
No other table is touched. -/
def updateConsentService (db : DonorDb) (uid : Nat) (donorType : String)
    (consentGiven : Bool) (now : String) : Except String (DonorDb × DonorRow) :=
  match parseDonorType donorType with
  | none => .error "Failed to update consent"
  | some dt =>
    let donors2 := db.donors.map fun r =>
      if r.user_id == uid then
        { r with donor_type := some dt, consent_given := consentGiven,
                 consent_date := if consentGiven then some now else none }
      else r
    match donors2.find? (fun r => r.user_id == uid) with
    | none => .error "Failed to update consent"
    | some row => .ok ({ db with donors := donors2 }, row)

/-- JS truthiness of an optional request string (`!donorType`). -/
def jsTruthy : Option String → Bool
  | none => false
  | some s => !(s == "")

/-- A `{ donorType, consentGiven }` request body. -/
structure ConsentBody where
  donorType : Option String
  consentGiven : Option Bool
deriving DecidableEq, Repr

/-- `donorController.updateConsent`: role gate, the
`!donorType || consentGiven === undefined` validation, then the service;
a service error surfaces as 500.  The pair is (HTTP status, store after). -/
def donorControllerUpdateConsent (role : Role) (body : ConsentBody) (db : DonorDb)
    (uid : Nat) (now : String) : Nat × DonorDb :=
  if role != Role.donor then (403, db)
  else if !(jsTruthy body.donorType) || body.consentGiven.isNone then (400, db)
  else
    match updateConsentService db uid (body.donorType.getD "") (body.consentGiven.getD false) now with
    | .error _ => (500, db)
    | .ok (db2, _) => (200, db2)

/-- `auditService.logEvent`: the insert is wrapped in `try/catch`, so a
failed write (`insertOk = false`) is only logged and the caller always
continues; the function never raises. -/
def logEvent (insertOk : Bool) (logs : List String) (action : String) : List String :=
  if insertOk then logs ++ [action] else logs

/-- `sponsorService.fundCase`: look the case up (404-style error when
absent), then insert the `case_sponsors` row — the DB trigger does the
aggregate updates.  The re-read of the case after the trigger returns data
already contained in the new state, so it is not modelled separately. -/
def backendFundCase (st : LedgerState) (sponsorId caseId : Nat) (amount : Int) :
    Except String LedgerState :=
  if !(st.cases.any (fun c => c.id == caseId)) then .error "Case not found"
  else
    match insertCaseSponsor st { case_id := caseId, sponsor_id := sponsorId, amount := amount } with
    | .error _ => .error "Failed to fund case"
    | .ok st2 => .ok st2

/-- `sponsorController.fundCase`: role gate, approval gate, the
`!caseId || !amount || amount <= 0` validation (a `Nat` id is falsy at 0),
the service call, then `auditService.logEvent` on success.  Result:
(HTTP status, ledger after, audit log after). -/
def sponsorFundCaseController (role : Role) (approved : Bool) (st : LedgerState)
    (logs : List String) (auditOk : Bool) (uid caseId : Nat) (amount : Int) :
    Nat × LedgerState × List String :=
  if role != Role.sponsor then (403, st, logs)
  else if !approved then (403, st, logs)
  else if caseId == 0 || amount ≤ 0 then (400, st, logs)
  else
    match backendFundCase st uid caseId amount with
    | .error _ => (500, st, logs)
    | .ok st2 => (200, st2, logEvent auditOk logs "CASE_FUNDED")

/-! ## Express backend: case list for donors
(`caseService.getCasesByRole` + `caseController.getCases`) -/

structure DbCase where
  id : String
  patient_id : String
  organ_needed : String
  urgency_level : String
  notes : String
  status : String
  created_at : String
  updated_at : String
  matched_donor_id : Option String
  assigned_hospital_id : Option String
  funding_amount : Int
  funding_goal : Int
deriving DecidableEq, Repr

/-- The shape `caseService.formatCase` returns to clients. -/
structure FormattedCase where
  id : String
  patientId : String
  patientName : String
  organNeeded : String
  urgencyLevel : String
  notes : String
  status : String
  createdAt : String
  updatedAt : String
  matchedDonorId : Option String
  assignedHospitalId : Option String
  fundingAmount : Int
  fundingGoal : Int
deriving DecidableEq, Repr

/-- Association-list lookup (`find first value at key`). -/
def lookupKey {α : Type} (l : List (String × α)) (k : String) : Option α :=
  (l.find? (fun p => p.1 == k)).map Prod.snd

/-- `caseService.formatCase`: the joined patient name, defaulted to
`"Anonymous"` when the join produced nothing. -/
def formatCase (c : DbCase) (patientName : Option String) : FormattedCase :=
  { id := c.id, patientId := c.patient_id, patientName := patientName.getD "Anonymous",
    organNeeded := c.organ_needed, urgencyLevel := c.urgency_level, notes := c.notes,
    status := c.status, createdAt := c.created_at, updatedAt := c.updated_at,
    matchedDonorId := c.matched_donor_id, assignedHospitalId := c.assigned_hospital_id,
    fundingAmount := c.funding_amount, fundingGoal := c.funding_goal }

/-- `caseService.getCasesByRole` for a donor: no filter, every case joined
with the patient's name from `users`. -/
def getCasesByRoleDonor (userNames : List (String × String)) (cases : List DbCase) :
    List FormattedCase :=
  cases.map fun c => formatCase c (lookupKey userNames c.patient_id)

/-- `caseController.getCases` for a donor (or sponsor): the service result
with every `patientName` overwritten by the constant `'Anonymous Patient'`. -/
def caseControllerGetCasesDonor (userNames : List (String × String)) (cases : List DbCase) :
    List FormattedCase :=
  (getCasesByRoleDonor userNames cases).map fun c => { c with patientName := "Anonymous Patient" }

/-! ## Serverless API (`src/supabase/functions/server/index.tsx`)

The kv store is an association list; `kvSet` removes the key and appends,
which is extensionally the map-update the source performs. -/

def kvSet {α : Type} (l : List (String × α)) (k : String) (v : α) : List (String × α) :=
  l.filter (fun p => !(p.1 == k)) ++ [(k, v)]

structure KvSponsorEntry where
  sponsorId : String
  sponsorName : String
  amount : Int
  date : String
deriving DecidableEq, Repr

/-- A `case:*` record in the kv store. -/
structure KvCase where
  id : String
  patientId : String
  patientName : String
  organNeeded : String
  urgencyLevel : String
  notes : String
  status : String
  createdAt : String
  updatedAt : String
  matchedDonorId : Option String
  assignedHospitalId : Option String
  fundingAmount : Int
  fundingGoal : Int
  sponsors : List KvSponsorEntry
deriving DecidableEq, Repr

/-- A `sponsor:*` record in the kv store. -/
structure KvSponsor where
  userId : String
  name : String
  approved : Bool
  fundedCases : List String
  totalFunded : Int
deriving DecidableEq, Repr

/-- A `donor:*` record in the kv store. -/
structure KvDonor where
  userId : String
  name : String
  donorType : Option String
  consentGiven : Bool
  canWithdraw : Bool
  consentDate : Option String
deriving DecidableEq, Repr

/-- The projection the donor branch of `GET /cases` applies to each case:
only id / organNeeded / urgencyLevel / status / createdAt survive. -/
structure DonorCaseView where
  id : String
  organNeeded : String
  urgencyLevel : String
  status : String
  createdAt : String
deriving DecidableEq, Repr

def donorCaseView (c : KvCase) : DonorCaseView :=
  { id := c.id, organNeeded := c.organNeeded, urgencyLevel := c.urgencyLevel,
    status := c.status, createdAt := c.createdAt }

/-- The donor branch of the serverless `GET /cases` handler, applied to the
values under the `case:` prefix. -/
def getCasesDonorBranch (cases : List KvCase) : List DonorCaseView :=
  cases.map donorCaseView

/-- The serverless `POST /donor/consent` handler: role gate, the
`!donorType || consentGiven === undefined` validation, then the three
profile-field writes — `consentDate` is set to the request time on BOTH
giving and withdrawing consent.  Result: (HTTP status, profile after). -/
def donorConsentHandler (role : Role) (profile : KvDonor) (body : ConsentBody)
    (now : String) : Nat × KvDonor :=
  if role != Role.donor then (403, profile)
  else if !(jsTruthy body.donorType) || body.consentGiven.isNone then (400, profile)
  else
    (200, { profile with donorType := body.donorType,
                         consentGiven := body.consentGiven.getD false,
                         consentDate := some now })

/-- The kv-store state the serverless fund handler touches. -/
structure FundState where
  cases : List (String × KvCase)
  sponsors : List (String × KvSponsor)
  audits : List String
deriving DecidableEq, Repr

/-- A `{ caseId, amount }` request body (`""` is the falsy caseId). -/
structure FundBody where
  caseId : String
  amount : Int
deriving DecidableEq, Repr

/-- The case mutation of `POST /sponsor/fund`: add the amount, push the
sponsor entry, then flip the status to `"funded"` when
`fundingGoal > 0 && fundingAmount >= fundingGoal` (tested after the add). -/
def applyFunding (cd : KvCase) (uid uname : String) (amount : Int) (now : String) : KvCase :=
  let cd1 := { cd with
    fundingAmount := cd.fundingAmount + amount
    sponsors := cd.sponsors ++
      [{ sponsorId := uid, sponsorName := uname, amount := amount, date := now }] }
  if 0 < cd1.fundingGoal ∧ cd1.fundingGoal ≤ cd1.fundingAmount then
    { cd1 with status := "funded" }
  else cd1

/-- The serverless `POST /sponsor/fund` handler.  Gates: sponsor role, a
readable approved sponsor profile, `!caseId || !amount || amount <= 0`,
case existence.  Then the case write, the sponsor-profile write, and the
audit write; a failing audit write (`auditOk = false`) throws into the
handler's catch, which answers 500 — the two business writes are already
committed and are not rolled back. -/
def sponsorFundHandler (st : FundState) (role : Role) (uid uname : String)
    (body : FundBody) (now : String) (auditOk : Bool) : Nat × FundState :=
  if role != Role.sponsor then (403, st)
  else
    match lookupKey st.sponsors uid with
    | none => (500, st)
    | some sp =>
      if !sp.approved then (403, st)
      else if body.caseId == "" || body.amount ≤ 0 then (400, st)
      else
        match lookupKey st.cases body.caseId with
        | none => (404, st)
        | some cd =>
          let cd2 := applyFunding cd uid uname body.amount now
          let st1 := { st with cases := kvSet st.cases body.caseId cd2 }
          let sp2 := { sp with fundedCases := sp.fundedCases ++ [body.caseId],
                               totalFunded := sp.totalFunded + body.amount }
          let st2 := { st1 with sponsors := kvSet st1.sponsors uid sp2 }
          if auditOk then (200, { st2 with audits := st2.audits ++ ["CASE_FUNDED"] })
          else (500, st2)

/-! ## Serverless `PUT /cases/:caseId`

The handler writes `{ ...existingCase, ...body, updatedAt: now }`; a case
record is modelled as a partial map from JSON keys to JSON values, which is
what the spread operates on. -/

inductive JVal where
  | str (s : String)
  | num (n : Int)
  | bool (b : Bool)
  | null
deriving DecidableEq, Repr

def JObj : Type := String → Option JVal

/-- `{ ...existing, ...body, updatedAt: now }`. -/
def spreadUpdate (existing body : JObj) (now : String) : JObj :=
  fun k =>
    if k = "updatedAt" then some (JVal.str now)
    else
      match body k with
      | some v => some v
      | none => existing k

/-- The `PUT /cases/:caseId` handler: hospital/admin gate, 404 when the
case key is absent, then the unvalidated spread-merge of the request body. -/
def updateCaseHandler (role : Role) (existingCase : Option JObj) (body : JObj)
    (now : String) : Except Nat JObj :=
  if !(role == Role.hospital || role == Role.admin) then .error 403
  else
    match existingCase with
    | none => .error 404
    | some ec => .ok (spreadUpdate ec body now)

/-! ## Auxiliary definitions for the stated properties, and concrete
sample data used to evaluate the operations at explicit inputs. -/

/-- Two stored case records that agree on every field except the patient's
name (the "two runs differ only in patients' names" relation). -/
def sameExceptPatientName (a b : KvCase) : Prop :=
  a.id = b.id ∧ a.patientId = b.patientId ∧ a.organNeeded = b.organNeeded ∧
  a.urgencyLevel = b.urgencyLevel ∧ a.notes = b.notes ∧ a.status = b.status ∧
  a.createdAt = b.createdAt ∧ a.updatedAt = b.updatedAt ∧
  a.matchedDonorId = b.matchedDonorId ∧ a.assignedHospitalId = b.assignedHospitalId ∧
  a.fundingAmount = b.fundingAmount ∧ a.fundingGoal = b.fundingGoal ∧
  a.sponsors = b.sponsors

/-! Sample rows (SQL layer). -/

def caseRowSample : CaseRow :=
  { id := 1, patient_id := 10, organ_needed := "kidney", urgency_level := "high",
    status := CaseStatus.waiting, funding_goal := 500, funding_amount := 0 }

def sponsorRowSample : SponsorRow :=
  { user_id := 20, approved := true, total_funded := 0, funded_count := 0 }

def ledgerSample : LedgerState :=
  { cases := [caseRowSample], sponsors := [sponsorRowSample], case_sponsors := [] }

def contributionSample : Contribution := { case_id := 1, sponsor_id := 20, amount := 500 }

def deceasedDonorSample : DonorRow :=
  { user_id := 7, donor_type := some DonorType.deceased, consent_given := true,
    consent_date := some "2026-01-01T00:00:00Z", can_withdraw := true }

def livingDonorSample : DonorRow :=
  { user_id := 3, donor_type := some DonorType.living, consent_given := true,
    consent_date := some "2026-01-01T00:00:00Z", can_withdraw := true }

def unsetDonorSample : DonorRow :=
  { user_id := 5, donor_type := none, consent_given := false,
    consent_date := none, can_withdraw := true }

/-- A `heart` offer flagged as living donation, for donor 7 (deceased). -/
def heartLivingRow : DonorOrganRow :=
  { donor_id := 7, organ_name := "heart", is_living_donation := true, status := "available" }

/-- The same attempt for donor 3, whose recorded type is living. -/
def heartLivingRow3 : DonorOrganRow :=
  { donor_id := 3, organ_name := "heart", is_living_donation := true, status := "available" }

def donorDbSample : DonorDb :=
  { donors := [livingDonorSample], medical := [], organs := [], contacts := [] }

def livingDonorData1 : LivingDonorData :=
  { organs := ["kidney", "blood"], bloodType := "O+", age := 30, gender := "female",
    medicalHistory := "No significant history", medicalConditions := "", allergies := "",
    hasRecentTests := false, recentTestsDescription := "", consent := true }

def livingDonorData2 : LivingDonorData :=
  { organs := ["bone_marrow"], bloodType := "O+", age := 30, gender := "female",
    medicalHistory := "No significant history", medicalConditions := "", allergies := "",
    hasRecentTests := false, recentTestsDescription := "", consent := true }

/-! Sample kv-store records (serverless layer). -/

def kvCaseAlice : KvCase :=
  { id := "case:1", patientId := "p1", patientName := "Alice", organNeeded := "kidney",
    urgencyLevel := "high", notes := "", status := "waiting", createdAt := "t0",
    updatedAt := "t0", matchedDonorId := none, assignedHospitalId := none,
    fundingAmount := 0, fundingGoal := 500, sponsors := [] }

def kvCaseBob : KvCase :=
  { kvCaseAlice with patientName := "Bob" }

def kvSponsorSample : KvSponsor :=
  { userId := "s1", name := "Sponsor One", approved := true, fundedCases := [],
    totalFunded := 0 }

def fundStateSample : FundState :=
  { cases := [("case:1", kvCaseAlice)], sponsors := [("s1", kvSponsorSample)], audits := [] }

def kvDonorSample : KvDonor :=
  { userId := "d1", name := "Donor One", donorType := some "living", consentGiven := true,
    canWithdraw := true, consentDate := some "2026-01-01T00:00:00Z" }

def kvDonorUnset : KvDonor :=
  { userId := "d2", name := "Donor Two", donorType := none, consentGiven := false,
    canWithdraw := true, consentDate := none }

/-! Sample backend rows. -/

def dbCaseSample : DbCase :=
  { id := "c1", patient_id := "p1", organ_needed := "kidney", urgency_level := "high",
    notes := "", status := "waiting", created_at := "t0", updated_at := "t0",
    matched_donor_id := none, assigned_hospital_id := none,
    funding_amount := 0, funding_goal := 500 }

def donorRow9 : DonorRow :=
  { user_id := 9, donor_type := some DonorType.living, consent_given := true,
    consent_date := some "2026-01-01T00:00:00Z", can_withdraw := true }

def donorDbRowSample : DonorDb :=
  { donors := [donorRow9],
    medical := [{ donor_id := 9, blood_type := "O+", age := some 30, gender := some "female",
                  allergies := "", medical_conditions := "", medical_history := "hx",
                  has_recent_tests := false, recent_tests_description := "" }],
    organs := [{ donor_id := 9, organ_name := "kidney", is_living_donation := true,
                 status := "available" }],
    contacts := [] }

/-! Sample JSON objects for the `PUT /cases/:caseId` spread. -/

def sampleCaseObj : JObj := fun k =>
  if k = "id" then some (JVal.str "case:1")
  else if k = "patientId" then some (JVal.str "p1")
  else if k = "status" then some (JVal.str "waiting")
  else if k = "fundingAmount" then some (JVal.num 0)
  else if k = "updatedAt" then some (JVal.str "t0")
  else none

def sampleUpdateBody : JObj := fun k =>
  if k = "status" then some (JVal.str "transplanted")
  else if k = "fundingAmount" then some (JVal.num 999)
  else none

/-! ## Helper lemmas -/

theorem lookupKey_kvSet_self {α : Type} (l : List (String × α)) (k : String) (v : α) :
    lookupKey (kvSet l k v) k = some v := by
  unfold lookupKey kvSet
  rw [List.find?_append]
  have h1 : (l.filter (fun p => !(p.1 == k))).find? (fun p => p.1 == k) = none := by
    apply List.find?_eq_none.mpr
    intro x hx
    have h2 := (List.mem_filter.mp hx).2
    simp only [Bool.not_eq_true'] at h2
    simp [h2]
  rw [h1]
  simp

theorem any_userid_map (l : List DonorRow) (f : DonorRow → DonorRow)
    (hf : ∀ r, (f r).user_id = r.user_id) (p : Nat → Bool) :
    (l.map f).any (fun r => p r.user_id) = l.any (fun r => p r.user_id) := by
  induction l with
  | nil => rfl
  | cons a l ih => simp [List.any_cons, hf, ih]

theorem exists_userid_map (l : List DonorRow) (f : DonorRow → DonorRow)
    (hf : ∀ r, (f r).user_id = r.user_id) (uid : Nat)
    (h : ∃ r ∈ l, r.user_id = uid) : ∃ r ∈ l.map f, r.user_id = uid := by
  obtain ⟨r, hr, hru⟩ := h
  exact ⟨f r, List.mem_map_of_mem f hr, by rw [hf r, hru]⟩

theorem find?_userid_map_update (l : List DonorRow) (uid : Nat) (g : DonorRow → DonorRow)
    (hg : ∀ r, (g r).user_id = r.user_id)
    (h : ∃ r ∈ l, r.user_id = uid) :
    ∃ r0 ∈ l, r0.user_id = uid ∧
      (l.map (fun r => if r.user_id == uid then g r else r)).find? (fun r => r.user_id == uid)
        = some (g r0) := by
  induction l with
  | nil => simp at h
  | cons a l ih =>
    by_cases ha : a.user_id = uid
    · refine ⟨a, List.mem_cons_self a l, ha, ?_⟩
      have hpa : ((g a).user_id == uid) = true := by simp [hg a, ha]
      simp [ha, List.find?_cons_of_pos, hpa]
    · obtain ⟨r, hr, hru⟩ := h
      rcases List.mem_cons.mp hr with rfl | hr'
      · exact absurd hru ha
      · obtain ⟨r0, h0, h0u, hfind⟩ := ih ⟨r, hr', hru⟩
        refine ⟨r0, List.mem_cons_of_mem a h0, h0u, ?_⟩
        have hpa : (a.user_id == uid) = false := by simp [ha]
        have hhead : (if (a.user_id == uid) = true then g a else a) = a := by simp [hpa]
        rw [List.map_cons, hhead, List.find?_cons_of_neg, hfind]
        simp [ha]

theorem mem_living_organ_names {g : String} (h : g ∈ LIVING_DONOR_ORGAN_VALUES) :
    g ∈ ORGAN_NAME_VALUES := by
  simp only [LIVING_DONOR_ORGAN_VALUES, List.mem_cons, List.mem_singleton] at h
  rcases h with rfl | rfl | rfl | rfl | h <;> first | decide | simp at h

theorem validate_living_of_mem (donors : List DonorRow) (row : DonorOrganRow)
    (h : row.organ_name ∈ LIVING_DONOR_ORGAN_VALUES) :
    validate_living_donor_organs donors row = true := by
  unfold validate_living_donor_organs
  cases hdt : lookupDonorType donors row.donor_id with
  | none => rfl
  | some dt =>
    cases dt with
    | living =>
      cases hl : row.is_living_donation <;> simp [hl, h]
    | deceased => rfl

theorem insertDonorOrgan_living_ok (donors : List DonorRow) (organs : List DonorOrganRow)
    (uid : Nat) (g : String)
    (hg : g ∈ LIVING_DONOR_ORGAN_VALUES)
    (hfk : donors.any (fun d => d.user_id == uid) = true)
    (hnc : ∀ o ∈ organs, o.donor_id = uid → o.organ_name ≠ g) :
    insertDonorOrgan donors organs (mkLivingOrganRow uid g)
      = .ok (organs ++ [mkLivingOrganRow uid g]) := by
  have hval := validate_living_of_mem donors (mkLivingOrganRow uid g) hg
  have hck : donor_organs_check (mkLivingOrganRow uid g) = true := by
    unfold donor_organs_check mkLivingOrganRow
    simp only [Bool.and_eq_true]
    exact ⟨List.elem_iff.mpr (mem_living_organ_names hg), by decide⟩
  have hfk' : donors.any (fun d => d.user_id == (mkLivingOrganRow uid g).donor_id) = true := hfk
  have huniq : organs.any
      (fun o => o.donor_id == (mkLivingOrganRow uid g).donor_id &&
        o.organ_name == (mkLivingOrganRow uid g).organ_name) = false := by
    rw [List.any_eq_false]
    intro o ho
    simp only [mkLivingOrganRow, Bool.and_eq_true, beq_iff_eq, not_and]
    intro h1 h2
    exact hnc o ho h1 h2
  unfold insertDonorOrgan
  rw [hval, hck, hfk', huniq]
  simp

theorem insertDonorOrgansAll_living (donors : List DonorRow) (uid : Nat)
    (names : List String) :
    ∀ (organs : List DonorOrganRow),
      (∀ g ∈ names, g ∈ LIVING_DONOR_ORGAN_VALUES) →
      names.Nodup →
      donors.any (fun d => d.user_id == uid) = true →
      (∀ o ∈ organs, o.donor_id = uid → o.organ_name ∉ names) →
      insertDonorOrgansAll donors organs (names.map (mkLivingOrganRow uid))
        = .ok (organs ++ names.map (mkLivingOrganRow uid)) := by
  induction names with
  | nil =>
    intro organs _ _ _ _
    simp [insertDonorOrgansAll]
  | cons g gs ih =>
    intro organs hmem hnd hfk hnc
    have h1 := insertDonorOrgan_living_ok donors organs uid g (hmem g (by simp)) hfk
      (fun o ho hou hname => hnc o ho hou (hname ▸ List.mem_cons_self g gs))
    have hgnotin : g ∉ gs := (List.nodup_cons.mp hnd).1
    have h2 := ih (organs ++ [mkLivingOrganRow uid g])
      (fun x hx => hmem x (List.mem_cons_of_mem g hx))
      (List.nodup_cons.mp hnd).2 hfk
      (by
        intro o ho hou
        rcases List.mem_append.mp ho with ho' | ho'
        · exact fun hx => hnc o ho' hou (List.mem_cons_of_mem g hx)
        · have : o = mkLivingOrganRow uid g := by simpa using ho'
          subst this
          simpa [mkLivingOrganRow] using hgnotin)
    simp only [List.map_cons, insertDonorOrgansAll, h1, h2]
    rw [List.append_assoc]
    rfl

theorem upsertMedicalInfo_ok (med : List MedicalInfoRow) (m : MedicalInfoRow)
    (h : donor_medical_info_check m = true) :
    ∃ med2, upsertMedicalInfo med m = .ok med2 := by
  unfold upsertMedicalInfo
  rw [h]
  by_cases h2 : med.any (fun x => x.donor_id == m.donor_id) = true <;> simp [h2]

theorem registerLivingDonor_ok (uid : Nat) (d : LivingDonorData) (now : String) (db : DonorDb)
    (h1 : d.organs ≠ [])
    (h2 : d.bloodType ∈ BLOOD_TYPE_VALUES)
    (h3 : 18 ≤ d.age) (h4 : d.age ≤ 100)
    (h5 : d.gender ∈ GENDER_VALUES)
    (h6 : d.medicalHistory ≠ "")
    (h7 : d.consent = true)
    (h8 : ∀ g ∈ d.organs, g ∈ LIVING_DONOR_ORGAN_VALUES)
    (h9 : d.organs.Nodup)
    (h10 : ∃ r ∈ db.donors, r.user_id = uid) :
    ∃ med2,
      registerLivingDonor uid d now db =
        (true,
          { donors := registerDonorUpdate uid DonorType.living d.consent now db.donors
            medical := med2
            organs := db.organs.filter (fun o => !(o.donor_id == uid))
                        ++ d.organs.map (mkLivingOrganRow uid)
            contacts := db.contacts }) := by
  have hbt : (d.bloodType == "") = false := by
    rcases hbe : d.bloodType == "" with _ | _
    · rfl
    · have hmem : ("" : String) ∈ BLOOD_TYPE_VALUES := by rw [← eq_of_beq hbe]; exact h2
      exact absurd hmem (by decide)
  have hgd : (d.gender == "") = false := by
    rcases hge : d.gender == "" with _ | _
    · rfl
    · have hmem : ("" : String) ∈ GENDER_VALUES := by rw [← eq_of_beq hge]; exact h5
      exact absurd hmem (by decide)
  have hmh : (d.medicalHistory == "") = false := by simpa using h6
  have hval : validateLivingDonorData d = [] := by
    unfold validateLivingDonorData
    rw [hbt, hgd, hmh, h7]
    have hae : (decide (d.age < 18) || decide (100 < d.age)) = false := by
      simp [Nat.not_lt.mpr h3, Nat.not_lt.mpr h4]
    have hoe : d.organs.isEmpty = false := by
      cases ho : d.organs with
      | nil => exact absurd ho h1
      | cons x xs => rfl
    simp [hoe, Nat.not_lt.mpr h3, Nat.not_lt.mpr h4]
  have hmedck : donor_medical_info_check
      { donor_id := uid, blood_type := d.bloodType, age := some d.age,
        gender := some d.gender, allergies := d.allergies,
        medical_conditions := d.medicalConditions, medical_history := d.medicalHistory,
        has_recent_tests := d.hasRecentTests,
        recent_tests_description := d.recentTestsDescription } = true := by
    unfold donor_medical_info_check
    simp only [Bool.and_eq_true]
    refine ⟨⟨List.elem_iff.mpr h2, ?_⟩, ?_⟩
    · simp [h3, h4]
    · simpa using List.elem_iff.mpr h5
  obtain ⟨med2, hmed⟩ := upsertMedicalInfo_ok db.medical _ hmedck
  have hany : db.donors.any (fun r => r.user_id == uid) = true := by
    obtain ⟨r, hr, hru⟩ := h10
    exact List.any_eq_true.mpr ⟨r, hr, by simp [hru]⟩
  have hfk : (registerDonorUpdate uid DonorType.living d.consent now db.donors).any
      (fun dr => dr.user_id == uid) = true := by
    unfold registerDonorUpdate
    have hmapany := any_userid_map db.donors
      (fun r => if r.user_id == uid then
        { r with donor_type := some DonorType.living, consent_given := d.consent,
                 consent_date := some now } else r)
      (fun r => by by_cases hx : (r.user_id == uid) = true <;> simp [hx])
      (fun n => n == uid)
    exact hmapany.trans hany
  have hnc : ∀ o ∈ db.organs.filter (fun o => !(o.donor_id == uid)),
      o.donor_id = uid → o.organ_name ∉ d.organs := by
    intro o ho hou
    have h2 := (List.mem_filter.mp ho).2
    simp [hou] at h2
  have hins := insertDonorOrgansAll_living
    (registerDonorUpdate uid DonorType.living d.consent now db.donors) uid d.organs
    (db.organs.filter (fun o => !(o.donor_id == uid))) h8 h9 hfk hnc
  refine ⟨med2, ?_⟩
  unfold registerLivingDonor
  rw [hval]
  simp only [List.isEmpty_nil, Bool.not_true, Bool.false_eq_true, if_false, hmed, hins]

/-- The organ rows for `uid` after a full replace are exactly the new rows. -/
theorem filter_uid_of_replaced (uid : Nat) (pre : List DonorOrganRow) (names : List String)
    (hpre : ∀ o ∈ pre, (o.donor_id == uid) = false) :
    (pre ++ names.map (mkLivingOrganRow uid)).filter (fun o => o.donor_id == uid)
      = names.map (mkLivingOrganRow uid) := by
  rw [List.filter_append]
  have hl : pre.filter (fun o => o.donor_id == uid) = [] :=
    List.filter_eq_nil_iff.mpr (fun o ho => by simp [hpre o ho])
  have hr : (names.map (mkLivingOrganRow uid)).filter (fun o => o.donor_id == uid)
      = names.map (mkLivingOrganRow uid) :=
    List.filter_eq_self.mpr (fun o ho => by
      obtain ⟨g, hg, rfl⟩ := List.mem_map.mp ho
      simp [mkLivingOrganRow])
  rw [hl, hr, List.nil_append]

/-- `donorService.updateConsent` on a present donor row: the update applies
to that row and only the `donors` table changes. -/
theorem updateConsentService_ok (db : DonorDb) (uid : Nat) (dts : String) (dt : DonorType)
    (cg : Bool) (now : String) (hdt : parseDonorType dts = some dt)
    (h : ∃ r ∈ db.donors, r.user_id = uid) :
    ∃ r0 ∈ db.donors, r0.user_id = uid ∧
      updateConsentService db uid dts cg now =
        .ok ({ db with donors := db.donors.map (fun r => if r.user_id == uid then
                 { r with donor_type := some dt, consent_given := cg,
                          consent_date := if cg then some now else none } else r) },
             { r0 with donor_type := some dt, consent_given := cg,
                       consent_date := if cg then some now else none }) := by
  obtain ⟨r0, h0, h0u, hfind⟩ := find?_userid_map_update db.donors uid
    (fun r => { r with donor_type := some dt, consent_given := cg,
                       consent_date := if cg then some now else none })
    (fun r => rfl) h
  refine ⟨r0, h0, h0u, ?_⟩
  unfold updateConsentService
  rw [hdt]
  simp only [hfind]

/-- A consent withdrawal (`consentGiven = false`) through the backend
service: it succeeds, clears `consent_date`, leaves the donor row present,
and leaves the medical/organ/contact tables untouched. -/
theorem updateConsentService_withdraw (db : DonorDb) (uid : Nat) (dts : String) (dt : DonorType)
    (now : String) (hdt : parseDonorType dts = some dt)
    (h : ∃ r ∈ db.donors, r.user_id = uid) :
    ∃ db2 row, updateConsentService db uid dts false now = .ok (db2, row) ∧
      row.consent_given = false ∧ row.consent_date = none ∧
      (∃ r ∈ db2.donors, r.user_id = uid) ∧
      db2.medical = db.medical ∧ db2.organs = db.organs ∧ db2.contacts = db.contacts := by
  obtain ⟨r0, h0, h0u, heq⟩ := updateConsentService_ok db uid dts dt false now hdt h
  refine ⟨_, _, heq, rfl, rfl, ?_, rfl, rfl, rfl⟩
  exact exists_userid_map db.donors _
    (fun r => by by_cases hx : (r.user_id == uid) = true <;> simp [hx]) uid h

/-- Redaction helper: the donor projection of the serverless case list does
not read `patientName`. -/
theorem donorCaseView_eq_of_sameExcept {a b : KvCase} (h : sameExceptPatientName a b) :
    donorCaseView a = donorCaseView b := by
  obtain ⟨h1, h2, h3, h4, h5, h6, h7, h8, h9, h10, h11, h12, h13⟩ := h
  unfold donorCaseView
  rw [h1, h3, h4, h6, h7]

/-- The backend controller's per-case output does not depend on the joined
patient name. -/
theorem controllerOverride_name_free (c : DbCase) (n1 n2 : Option String) :
    ({ formatCase c n1 with patientName := "Anonymous Patient" } : FormattedCase)
      = { formatCase c n2 with patientName := "Anonymous Patient" } := rfl

/-! ## Claim theorems -/

/-- C1: for every insert of a funding contribution with amount `a` into an
existing case (passing the `amount > 0` CHECK), the `update_case_funding`
trigger leaves the case's `funding_amount` equal to its old value plus
exactly `a`; the status becomes `funded` when the new amount reaches a
positive `funding_goal` and is otherwise unchanged (so it equals `funded`
iff the goal is reached or it already was `funded`); and the contributing
sponsor's `total_funded` grows by exactly `a`. -/
theorem C1_funding_insert (st : LedgerState) (n : Contribution) (a : Int)
    (ha : n.amount = a) (hpos : 0 < a)
    (c : CaseRow) (hc : c ∈ st.cases) (hcid : c.id = n.case_id)
    (s : SponsorRow) (hsid : s.user_id = n.sponsor_id) :
    insertCaseSponsor st n = .ok
      { cases := st.cases.map (update_case_funding_case n)
        sponsors := st.sponsors.map (update_case_funding_sponsor n)
        case_sponsors := st.case_sponsors ++ [n] } ∧
    (update_case_funding_case n c).funding_amount = c.funding_amount + a ∧
    (update_case_funding_case n c).status =
      (if c.funding_amount + a ≥ c.funding_goal ∧ 0 < c.funding_goal then CaseStatus.funded
       else c.status) ∧
    ((update_case_funding_case n c).status = CaseStatus.funded ↔
      ((c.funding_amount + a ≥ c.funding_goal ∧ 0 < c.funding_goal) ∨
        c.status = CaseStatus.funded)) ∧
    (update_case_funding_sponsor n s).total_funded = s.total_funded + a := by
  subst ha
  have hfk : st.cases.any (fun x => x.id == n.case_id) = true :=
    List.any_eq_true.mpr ⟨c, hc, by simp [hcid]⟩
  refine ⟨?_, ?_, ?_, ?_, ?_⟩
  · unfold insertCaseSponsor
    rw [if_neg (by omega : ¬ n.amount ≤ 0), hfk]
    simp
  · unfold update_case_funding_case
    rw [if_pos hcid]
  · unfold update_case_funding_case
    rw [if_pos hcid]
  · unfold update_case_funding_case
    rw [if_pos hcid]
    by_cases hcond : c.funding_amount + n.amount ≥ c.funding_goal ∧ 0 < c.funding_goal
    · simp [hcond]
    · simp [hcond]
  · unfold update_case_funding_sponsor
    rw [if_pos hsid]

theorem C1_witness :
    (update_case_funding_case contributionSample caseRowSample).funding_amount
      = caseRowSample.funding_amount + 500 ∧
    (update_case_funding_case contributionSample caseRowSample).status = CaseStatus.funded ∧
    (update_case_funding_sponsor contributionSample sponsorRowSample).total_funded
      = sponsorRowSample.total_funded + 500 := by
  have h := C1_funding_insert ledgerSample contributionSample 500 rfl (by decide)
    caseRowSample (by simp [ledgerSample]) (by decide) sponsorRowSample (by decide)
  refine ⟨h.2.1, ?_, h.2.2.2.2⟩
  rw [h.2.2.1]
  decide

/-- C2 (amended): the write-time living-organ restriction is conditional on
the donor's recorded `donor_type`: when it is `living`, inserting a
`donor_organs` row with `is_living_donation = true` and an `organ_name`
outside {kidney, partial_liver, bone_marrow, blood} fails with a Validation
error; when the recorded `donor_type` is `deceased` or unset, the trigger
accepts the row unchecked. -/
theorem C2_living_organ_check (donors : List DonorRow) (organs : List DonorOrganRow)
    (row : DonorOrganRow)
    (hlive : lookupDonorType donors row.donor_id = some DonorType.living)
    (hild : row.is_living_donation = true)
    (hout : row.organ_name ∉ LIVING_DONOR_ORGAN_VALUES) :
    insertDonorOrgan donors organs row =
      .error (DbError.Validation
        "Living donors can only donate: kidney, partial_liver, bone_marrow, or blood") ∧
    ∀ (donors2 : List DonorRow) (row2 : DonorOrganRow),
      lookupDonorType donors2 row2.donor_id ≠ some DonorType.living →
      validate_living_donor_organs donors2 row2 = true := by
  constructor
  · have hcont : LIVING_DONOR_ORGAN_VALUES.contains row.organ_name = false := by
      rcases hx : LIVING_DONOR_ORGAN_VALUES.contains row.organ_name with _ | _
      · rfl
      · exact absurd (List.elem_iff.mp hx) hout
    have hv : validate_living_donor_organs donors row = false := by
      unfold validate_living_donor_organs
      rw [hlive]
      simp only [hild, if_true]
      simpa using hout
    unfold insertDonorOrgan
    rw [hv]
    simp
  · intro donors2 row2 hne
    unfold validate_living_donor_organs
    cases hdt : lookupDonorType donors2 row2.donor_id with
    | none => rfl
    | some dt =>
      cases dt with
      | living => exact absurd hdt hne
      | deceased => rfl

/-- C2 counterexample to the claim as stated: for a donor whose recorded
`donor_type` is `deceased`, an insert of `heart` with
`is_living_donation = true` is accepted, not rejected. -/
theorem C2_counterexample :
    insertDonorOrgan [deceasedDonorSample] [] heartLivingRow = Except.ok [heartLivingRow] ∧
    heartLivingRow.is_living_donation = true ∧
    heartLivingRow.organ_name ∉ LIVING_DONOR_ORGAN_VALUES ∧
    deceasedDonorSample.user_id = heartLivingRow.donor_id := by
  exact ⟨rfl, rfl, by decide, rfl⟩

theorem C2_witness :
    insertDonorOrgan [livingDonorSample] [] heartLivingRow3 =
      Except.error (DbError.Validation
        "Living donors can only donate: kidney, partial_liver, bone_marrow, or blood") ∧
    validate_living_donor_organs [deceasedDonorSample] heartLivingRow = true := by
  have h := C2_living_organ_check [livingDonorSample] [] heartLivingRow3
    (by decide) rfl (by decide)
  exact ⟨h.1, h.2 [deceasedDonorSample] heartLivingRow (by decide)⟩

/-- C3 (amended): the donor case list never reveals a patient's actual
name: the serverless donor branch projects `patientName` away entirely, so
its output is identical for any two stores differing only in patients'
names; the backend path overwrites `patientName` with the constant
`'Anonymous Patient'` for every row, so its output is likewise independent
of the stored names — but that field is non-empty, so "no non-empty
patientName" fails on the backend path. -/
theorem C3_donor_redaction :
    (∀ (cs1 cs2 : List KvCase), List.Forall₂ sameExceptPatientName cs1 cs2 →
      getCasesDonorBranch cs1 = getCasesDonorBranch cs2) ∧
    (∀ (u1 u2 : List (String × String)) (cs : List DbCase),
      caseControllerGetCasesDonor u1 cs = caseControllerGetCasesDonor u2 cs) ∧
    (∀ (u : List (String × String)) (cs : List DbCase),
      ∀ fc ∈ caseControllerGetCasesDonor u cs, fc.patientName = "Anonymous Patient") := by
  refine ⟨?_, ?_, ?_⟩
  · intro cs1 cs2 h
    induction h with
    | nil => rfl
    | cons hab _ ih =>
      simp only [getCasesDonorBranch, List.map_cons] at ih ⊢
      rw [donorCaseView_eq_of_sameExcept hab, ih]
  · intro u1 u2 cs
    induction cs with
    | nil => rfl
    | cons c cs ih =>
      simp only [caseControllerGetCasesDonor, getCasesByRoleDonor, List.map_cons] at ih ⊢
      rw [ih]
      rfl
  · intro u cs fc hfc
    unfold caseControllerGetCasesDonor at hfc
    obtain ⟨x, hx, rfl⟩ := List.mem_map.mp hfc
    rfl

/-- C3 counterexample to the claim as stated: on the backend path a donor's
case list carries `patientName = "Anonymous Patient"`, a non-empty
patient-name field (and `patientId` is also present). -/
theorem C3_counterexample :
    (caseControllerGetCasesDonor [("p1", "Alice")] [dbCaseSample]).map
        (fun fc => fc.patientName) = ["Anonymous Patient"] ∧
    (caseControllerGetCasesDonor [("p1", "Alice")] [dbCaseSample]).map
        (fun fc => fc.patientId) = ["p1"] ∧
    "Anonymous Patient" ≠ "" := by
  exact ⟨rfl, rfl, by decide⟩

theorem C3_witness :
    getCasesDonorBranch [kvCaseAlice] = getCasesDonorBranch [kvCaseBob] ∧
    caseControllerGetCasesDonor [("p1", "Alice")] [dbCaseSample]
      = caseControllerGetCasesDonor [("p1", "Bob")] [dbCaseSample] := by
  have h := C3_donor_redaction
  refine ⟨h.1 [kvCaseAlice] [kvCaseBob] ?_,
    h.2.1 [("p1", "Alice")] [("p1", "Bob")] [dbCaseSample]⟩
  exact List.Forall₂.cons
    ⟨rfl, rfl, rfl, rfl, rfl, rfl, rfl, rfl, rfl, rfl, rfl, rfl, rfl⟩ List.Forall₂.nil

/-- C4 (amended): for a donor with `can_withdraw = true` and
`consent_given = true`, withdrawing consent succeeds with no precondition
on the donor's state and leaves `consent_given = false` and the
medical-info, organ and emergency-contact rows untouched; the backend
service clears `consent_date` to null, while the serverless handler instead
records the withdrawal time in `consentDate` (non-null). -/
theorem C4_withdraw_consent (db : DonorDb) (uid : Nat) (dts : String) (dt : DonorType)
    (now : String) (hdt : parseDonorType dts = some dt)
    (r : DonorRow) (hr : r ∈ db.donors) (hru : r.user_id = uid)
    (hcw : r.can_withdraw = true) (hcg : r.consent_given = true)
    (profile : KvDonor) (body : ConsentBody) (hb : jsTruthy body.donorType = true)
    (hbw : body.consentGiven = some false) (now2 : String) :
    (∃ db2 row, updateConsentService db uid dts false now = .ok (db2, row) ∧
      row.consent_given = false ∧ row.consent_date = none ∧
      db2.medical = db.medical ∧ db2.organs = db.organs ∧ db2.contacts = db.contacts) ∧
    ((donorConsentHandler Role.donor profile body now2).1 = 200 ∧
     (donorConsentHandler Role.donor profile body now2).2.consentGiven = false ∧
     (donorConsentHandler Role.donor profile body now2).2.consentDate = some now2) := by
  constructor
  · obtain ⟨db2, row, heq, hrow1, hrow2, _, hm, ho, hc⟩ :=
      updateConsentService_withdraw db uid dts dt now hdt ⟨r, hr, hru⟩
    exact ⟨db2, row, heq, hrow1, hrow2, hm, ho, hc⟩
  · refine ⟨?_, ?_, ?_⟩ <;> simp [donorConsentHandler, hb, hbw]

/-- C4 counterexample to the claim as stated: the serverless withdrawal
(`POST /donor/consent` with `consentGiven = false`) sets `consentDate` to
the request time instead of clearing it. -/
theorem C4_counterexample :
    kvDonorSample.consentGiven = true ∧ kvDonorSample.canWithdraw = true ∧
    (donorConsentHandler Role.donor kvDonorSample
        { donorType := some "living", consentGiven := some false }
        "2026-02-01T00:00:00Z").1 = 200 ∧
    (donorConsentHandler Role.donor kvDonorSample
        { donorType := some "living", consentGiven := some false }
        "2026-02-01T00:00:00Z").2.consentGiven = false ∧
    (donorConsentHandler Role.donor kvDonorSample
        { donorType := some "living", consentGiven := some false }
        "2026-02-01T00:00:00Z").2.consentDate ≠ none := by
  exact ⟨rfl, rfl, rfl, rfl, by decide⟩

theorem C4_witness :
    (∃ db2 row, updateConsentService donorDbRowSample 9 "living" false "t9" = .ok (db2, row) ∧
      row.consent_given = false ∧ row.consent_date = none ∧
      db2.medical = donorDbRowSample.medical ∧ db2.organs = donorDbRowSample.organs ∧
      db2.contacts = donorDbRowSample.contacts) ∧
    ((donorConsentHandler Role.donor kvDonorSample
        { donorType := some "living", consentGiven := some false } "t9").1 = 200 ∧
     (donorConsentHandler Role.donor kvDonorSample
        { donorType := some "living", consentGiven := some false } "t9").2.consentGiven = false ∧
     (donorConsentHandler Role.donor kvDonorSample
        { donorType := some "living", consentGiven := some false } "t9").2.consentDate
       = some "t9") :=
  C4_withdraw_consent donorDbRowSample 9 "living" DonorType.living "t9" rfl
    donorRow9 (by simp [donorDbRowSample]) rfl rfl rfl kvDonorSample
    { donorType := some "living", consentGiven := some false } rfl rfl "t9"

/-- C5: donor organ registration is full-replace: two successive successful
living-donor registrations with selections S1 then S2 leave the donor's
`donor_organs` rows equal to exactly the rows built from S2. -/
theorem C5_full_replace (uid : Nat) (d1 d2 : LivingDonorData) (now1 now2 : String) (db : DonorDb)
    (h1a : d1.organs ≠ []) (h1b : d1.bloodType ∈ BLOOD_TYPE_VALUES)
    (h1c : 18 ≤ d1.age) (h1d : d1.age ≤ 100) (h1e : d1.gender ∈ GENDER_VALUES)
    (h1f : d1.medicalHistory ≠ "") (h1g : d1.consent = true)
    (h1h : ∀ g ∈ d1.organs, g ∈ LIVING_DONOR_ORGAN_VALUES) (h1i : d1.organs.Nodup)
    (h2a : d2.organs ≠ []) (h2b : d2.bloodType ∈ BLOOD_TYPE_VALUES)
    (h2c : 18 ≤ d2.age) (h2d : d2.age ≤ 100) (h2e : d2.gender ∈ GENDER_VALUES)
    (h2f : d2.medicalHistory ≠ "") (h2g : d2.consent = true)
    (h2h : ∀ g ∈ d2.organs, g ∈ LIVING_DONOR_ORGAN_VALUES) (h2i : d2.organs.Nodup)
    (hdon : ∃ r ∈ db.donors, r.user_id = uid) :
    (registerLivingDonor uid d1 now1 db).1 = true ∧
    (registerLivingDonor uid d2 now2 (registerLivingDonor uid d1 now1 db).2).1 = true ∧
    ((registerLivingDonor uid d2 now2 (registerLivingDonor uid d1 now1 db).2).2).organs.filter
      (fun o => o.donor_id == uid) = d2.organs.map (mkLivingOrganRow uid) := by
  obtain ⟨m1, he1⟩ :=
    registerLivingDonor_ok uid d1 now1 db h1a h1b h1c h1d h1e h1f h1g h1h h1i hdon
  have hdon2 : ∃ r ∈ (registerLivingDonor uid d1 now1 db).2.donors, r.user_id = uid := by
    rw [he1]
    unfold registerDonorUpdate
    exact exists_userid_map db.donors _
      (fun r => by by_cases hx : (r.user_id == uid) = true <;> simp [hx]) uid hdon
  obtain ⟨m2, he2⟩ :=
    registerLivingDonor_ok uid d2 now2 (registerLivingDonor uid d1 now1 db).2
      h2a h2b h2c h2d h2e h2f h2g h2h h2i hdon2
  refine ⟨by rw [he1], by rw [he2], ?_⟩
  rw [he2]
  apply filter_uid_of_replaced
  intro o ho
  have h2 := (List.mem_filter.mp ho).2
  simpa using h2

theorem C5_witness :
    (registerLivingDonor 3 livingDonorData1 "t1" donorDbSample).1 = true ∧
    (registerLivingDonor 3 livingDonorData2 "t2"
        (registerLivingDonor 3 livingDonorData1 "t1" donorDbSample).2).1 = true ∧
    ((registerLivingDonor 3 livingDonorData2 "t2"
        (registerLivingDonor 3 livingDonorData1 "t1" donorDbSample).2).2).organs.filter
      (fun o => o.donor_id == 3) = [mkLivingOrganRow 3 "bone_marrow"] := by
  have h := C5_full_replace 3 livingDonorData1 livingDonorData2 "t1" "t2" donorDbSample
    (by decide) (by decide) (by decide) (by decide) (by decide) (by decide) rfl
    (by decide) (by decide)
    (by decide) (by decide) (by decide) (by decide) (by decide) (by decide) rfl
    (by decide) (by decide)
    ⟨livingDonorSample, by simp [donorDbSample], rfl⟩
  exact ⟨h.1, h.2.1, h.2.2⟩

/-- C6: the contribute operation rejects `amount ≤ 0` with a Validation
error (HTTP 400 in the serverless handler, 400 in the Express controller,
CHECK violation at the SQL layer) and requests naming an absent case with a
NotFound error (HTTP 404), and in every failure case the state is returned
unchanged — no contribution row, case change or sponsor change. -/
theorem C6_fund_rejections (st : FundState) (role : Role) (uid uname : String)
    (body : FundBody) (now : String) (auditOk : Bool) (sp : KvSponsor)
    (hrole : role = Role.sponsor) (hsp : lookupKey st.sponsors uid = some sp)
    (happ : sp.approved = true) :
    (body.amount ≤ 0 → sponsorFundHandler st role uid uname body now auditOk = (400, st)) ∧
    (0 < body.amount → body.caseId ≠ "" → lookupKey st.cases body.caseId = none →
      sponsorFundHandler st role uid uname body now auditOk = (404, st)) ∧
    (∀ (stL : LedgerState) (logs : List String) (auditOk2 : Bool) (uid2 caseId : Nat)
        (amount : Int), amount ≤ 0 →
      sponsorFundCaseController Role.sponsor true stL logs auditOk2 uid2 caseId amount
        = (400, stL, logs)) ∧
    (∀ (stL : LedgerState) (n : Contribution), n.amount ≤ 0 →
      insertCaseSponsor stL n = .error DbError.CheckViolation) := by
  subst hrole
  refine ⟨?_, ?_, ?_, ?_⟩
  · intro hneg
    unfold sponsorFundHandler
    rw [hsp]
    simp [happ, hneg]
  · intro hpos hcid hnone
    have hnle : ¬ body.amount ≤ 0 := not_le.mpr hpos
    unfold sponsorFundHandler
    rw [hsp]
    simp [happ, hcid, hnle, hnone]
  · intro stL logs auditOk2 uid2 caseId amount hneg
    unfold sponsorFundCaseController
    simp [hneg]
  · intro stL n hneg
    unfold insertCaseSponsor
    rw [if_pos hneg]

theorem C6_witness :
    sponsorFundHandler fundStateSample Role.sponsor "s1" "Sponsor One"
      { caseId := "case:1", amount := 0 } "t1" true = (400, fundStateSample) ∧
    sponsorFundHandler fundStateSample Role.sponsor "s1" "Sponsor One"
      { caseId := "case:9", amount := 50 } "t1" true = (404, fundStateSample) ∧
    insertCaseSponsor ledgerSample { case_id := 1, sponsor_id := 20, amount := 0 }
      = .error DbError.CheckViolation := by
  have h := C6_fund_rejections fundStateSample Role.sponsor "s1" "Sponsor One"
    { caseId := "case:1", amount := 0 } "t1" true kvSponsorSample rfl rfl rfl
  have h2 := C6_fund_rejections fundStateSample Role.sponsor "s1" "Sponsor One"
    { caseId := "case:9", amount := 50 } "t1" true kvSponsorSample rfl rfl rfl
  exact ⟨h.1 (by decide), h2.2.1 (by decide) (by decide) rfl,
    h.2.2.2 ledgerSample { case_id := 1, sponsor_id := 20, amount := 0 } (by decide)⟩

/-- C7: an attempt to set `consentGiven = true` without supplying a
`donorType` is rejected with a Validation error (HTTP 400) by both the
serverless consent handler and the Express controller, and the donor's
stored consent state is returned unchanged; the transition to consent thus
requires a donor type. -/
theorem C7_consent_requires_donor_type (profile : KvDonor) (hunset : profile.donorType = none)
    (body : ConsentBody) (hb : jsTruthy body.donorType = false)
    (hcg : body.consentGiven = some true) (now : String) (db : DonorDb) (uid : Nat) :
    donorConsentHandler Role.donor profile body now = (400, profile) ∧
    donorControllerUpdateConsent Role.donor body db uid now = (400, db) := by
  constructor
  · unfold donorConsentHandler
    simp [hb]
  · unfold donorControllerUpdateConsent
    simp [hb]

theorem C7_witness :
    donorConsentHandler Role.donor kvDonorUnset
      { donorType := none, consentGiven := some true } "t1" = (400, kvDonorUnset) ∧
    donorControllerUpdateConsent Role.donor { donorType := none, consentGiven := some true }
      donorDbRowSample 9 "t1" = (400, donorDbRowSample) :=
  C7_consent_requires_donor_type kvDonorUnset rfl
    { donorType := none, consentGiven := some true } rfl rfl "t1" donorDbRowSample 9

/-- C8: withdrawing consent is idempotent: two successive withdrawals both
succeed and leave `consent_given = false` after each call, in the backend
service and in the serverless handler alike. -/
theorem C8_withdraw_idempotent (db : DonorDb) (uid : Nat) (dts : String) (dt : DonorType)
    (hdt : parseDonorType dts = some dt) (h : ∃ r ∈ db.donors, r.user_id = uid)
    (now1 now2 : String) :
    (∃ db1 row1 db2 row2,
      updateConsentService db uid dts false now1 = .ok (db1, row1) ∧
      row1.consent_given = false ∧
      updateConsentService db1 uid dts false now2 = .ok (db2, row2) ∧
      row2.consent_given = false) ∧
    (∀ (p : KvDonor) (body : ConsentBody), jsTruthy body.donorType = true →
      body.consentGiven = some false →
      (donorConsentHandler Role.donor p body now1).1 = 200 ∧
      (donorConsentHandler Role.donor p body now1).2.consentGiven = false ∧
      (donorConsentHandler Role.donor (donorConsentHandler Role.donor p body now1).2
          body now2).1 = 200 ∧
      (donorConsentHandler Role.donor (donorConsentHandler Role.donor p body now1).2
          body now2).2.consentGiven = false) := by
  constructor
  · obtain ⟨db1, row1, he1, hcg1, _, hpres, _, _, _⟩ :=
      updateConsentService_withdraw db uid dts dt now1 hdt h
    obtain ⟨db2, row2, he2, hcg2, _, _, _, _, _⟩ :=
      updateConsentService_withdraw db1 uid dts dt now2 hdt hpres
    exact ⟨db1, row1, db2, row2, he1, hcg1, he2, hcg2⟩
  · intro p body hb hbw
    refine ⟨?_, ?_, ?_, ?_⟩ <;> simp [donorConsentHandler, hb, hbw]

theorem C8_witness :
    (∃ db1 row1 db2 row2,
      updateConsentService donorDbRowSample 9 "living" false "t1" = .ok (db1, row1) ∧
      row1.consent_given = false ∧
      updateConsentService db1 9 "living" false "t2" = .ok (db2, row2) ∧
      row2.consent_given = false) ∧
    (donorConsentHandler Role.donor kvDonorSample
      { donorType := some "living", consentGiven := some false } "t1").2.consentGiven = false := by
  have h := C8_withdraw_idempotent donorDbRowSample 9 "living" DonorType.living rfl
    ⟨donorRow9, by simp [donorDbRowSample], rfl⟩ "t1" "t2"
  exact ⟨h.1, (h.2 kvDonorSample { donorType := some "living", consentGiven := some false }
    rfl rfl).2.1⟩

/-- C9 (amended): in the Express backend, `auditService.logEvent` swallows
insert failures, so the outcome and the business state of the fund
operation are identical whether the audit write succeeds or fails; in the
serverless handler the business writes persist unchanged when the audit
write fails (no rollback), but the response then reports failure (500)
instead of success. -/
theorem C9_audit_best_effort :
    (∀ (role : Role) (approved : Bool) (stL : LedgerState) (logs : List String)
        (uid caseId : Nat) (amount : Int),
      (sponsorFundCaseController role approved stL logs true uid caseId amount).1
        = (sponsorFundCaseController role approved stL logs false uid caseId amount).1 ∧
      (sponsorFundCaseController role approved stL logs true uid caseId amount).2.1
        = (sponsorFundCaseController role approved stL logs false uid caseId amount).2.1) ∧
    (∀ (st : FundState) (uid uname : String) (body : FundBody) (now : String)
        (sp : KvSponsor) (cd : KvCase),
      lookupKey st.sponsors uid = some sp → sp.approved = true →
      body.caseId ≠ "" → 0 < body.amount → lookupKey st.cases body.caseId = some cd →
      (sponsorFundHandler st Role.sponsor uid uname body now false).1 = 500 ∧
      (sponsorFundHandler st Role.sponsor uid uname body now false).2.cases
        = (sponsorFundHandler st Role.sponsor uid uname body now true).2.cases ∧
      (sponsorFundHandler st Role.sponsor uid uname body now false).2.sponsors
        = (sponsorFundHandler st Role.sponsor uid uname body now true).2.sponsors) := by
  constructor
  · intro role approved stL logs uid caseId amount
    unfold sponsorFundCaseController
    by_cases h1 : (role != Role.sponsor) = true
    · simp [h1]
    · simp only [Bool.not_eq_true] at h1
      by_cases h2 : approved = true
      · by_cases h3 : (caseId == 0 || decide (amount ≤ 0)) = true
        · simp [h1, h2, h3]
        · simp only [Bool.not_eq_true] at h3
          cases hb : backendFundCase stL uid caseId amount with
          | error e => simp [h1, h2, h3, hb]
          | ok st2 => simp [h1, h2, h3, hb, logEvent]
      · simp only [Bool.not_eq_true] at h2
        simp [h1, h2]
  · intro st uid uname body now sp cd hsp happ hcid hpos hcd
    have hnle : ¬ body.amount ≤ 0 := not_le.mpr hpos
    refine ⟨?_, ?_, ?_⟩ <;> simp [sponsorFundHandler, hsp, happ, hcid, hnle, hcd]

/-- C9 counterexample to the claim as stated: in the serverless fund
handler, a failing audit write makes the operation report failure (500)
even though the funding mutation has already been applied and persists. -/
theorem C9_counterexample :
    (sponsorFundHandler fundStateSample Role.sponsor "s1" "Sponsor One"
        { caseId := "case:1", amount := 100 } "t1" false).1 = 500 ∧
    lookupKey (sponsorFundHandler fundStateSample Role.sponsor "s1" "Sponsor One"
        { caseId := "case:1", amount := 100 } "t1" false).2.cases "case:1"
      = some (applyFunding kvCaseAlice "s1" "Sponsor One" 100 "t1") ∧
    (applyFunding kvCaseAlice "s1" "Sponsor One" 100 "t1").fundingAmount
      = kvCaseAlice.fundingAmount + 100 := by
  exact ⟨rfl, rfl, rfl⟩

theorem C9_witness :
    ((sponsorFundCaseController Role.sponsor true ledgerSample [] true 20 1 100).1
      = (sponsorFundCaseController Role.sponsor true ledgerSample [] false 20 1 100).1) ∧
    (sponsorFundHandler fundStateSample Role.sponsor "s1" "Sponsor One"
        { caseId := "case:1", amount := 100 } "t2" false).1 = 500 := by
  have h := C9_audit_best_effort
  exact ⟨(h.1 Role.sponsor true ledgerSample [] 20 1 100).1,
    (h.2 fundStateSample "s1" "Sponsor One" { caseId := "case:1", amount := 100 } "t2"
      kvSponsorSample kvCaseAlice rfl rfl (by decide) (by decide) rfl).1⟩

/-- C10: for a hospital or admin caller and an existing case, the
serverless case update stores `{ ...existingCase, ...body, updatedAt: now }`
verbatim: every key present in the body (any value, no validation of status
or transitions) overwrites the stored field, every key absent from the body
keeps its prior value, and `updatedAt` is always refreshed to the request
time. -/
theorem C10_case_update_spread (role : Role) (hrole : role = Role.hospital ∨ role = Role.admin)
    (ec body : JObj) (now : String) :
    updateCaseHandler role (some ec) body now = .ok (spreadUpdate ec body now) ∧
    (∀ k v, k ≠ "updatedAt" → body k = some v → spreadUpdate ec body now k = some v) ∧
    (∀ k, k ≠ "updatedAt" → body k = none → spreadUpdate ec body now k = ec k) ∧
    spreadUpdate ec body now "updatedAt" = some (JVal.str now) := by
  refine ⟨?_, ?_, ?_, ?_⟩
  · rcases hrole with rfl | rfl <;> rfl
  · intro k v hk hb
    unfold spreadUpdate
    rw [if_neg hk, hb]
  · intro k hk hb
    unfold spreadUpdate
    rw [if_neg hk, hb]
  · unfold spreadUpdate
    rw [if_pos rfl]

theorem C10_witness :
    updateCaseHandler Role.hospital (some sampleCaseObj) sampleUpdateBody "t1"
      = .ok (spreadUpdate sampleCaseObj sampleUpdateBody "t1") ∧
    spreadUpdate sampleCaseObj sampleUpdateBody "t1" "status" = some (JVal.str "transplanted") ∧
    spreadUpdate sampleCaseObj sampleUpdateBody "t1" "patientId" = sampleCaseObj "patientId" ∧
    spreadUpdate sampleCaseObj sampleUpdateBody "t1" "updatedAt" = some (JVal.str "t1") := by
  have h := C10_case_update_spread Role.hospital (Or.inl rfl) sampleCaseObj sampleUpdateBody "t1"
  exact ⟨h.1, h.2.1 "status" (JVal.str "transplanted") (by decide) rfl,
    h.2.2.1 "patientId" (by decide) rfl, h.2.2.2⟩

end OrganixSpec
